import Mathlib

/-
Shallow embedding of the timberborn-vibed-power-mix core: the machine catalog
(machines.py), constants (consts.py), the stochastic power-balance simulator
(simulation.py, simulation/core.py, simulation/helpers.py) and the optimizer
scoring and solution filtering (optimizer.py). Machine counts are modelled as
naturals, float quantities as rationals, and the RNG draws as explicitly
passed wind-strength series. The one fallible numpy operation on the claimed
paths (np.argmax of an empty array raises ValueError) is modelled with Option.
-/

namespace TimberbornPowerMix

/-- consts.py: HOURS_PER_DAY = 24. -/
def HOURS_PER_DAY : ℕ := 24

/-- consts.py: LARGE_WINDMILL_THRESHOLD = 0.20. -/
def LARGE_WINDMILL_THRESHOLD : ℚ := 20 / 100

/-- consts.py: WINDMILL_THRESHOLD = 0.30. -/
def WINDMILL_THRESHOLD : ℚ := 30 / 100

/-- machines.py: MachineSpec(power, cost). -/
structure MachineSpec where
  power : ℚ
  cost : ℚ
deriving DecidableEq

/-- machines.py: FactoryName (the twelve consumer kinds). -/
inductive FactoryName
  | lumber_mill
  | gear_workshop
  | steel_factory
  | wood_workshop
  | paper_mill
  | printing_press
  | observatory
  | bot_part_factory
  | bot_assembler
  | explosives_factory
  | grillmist
  | centrifuge
deriving DecidableEq

/-- machines.py: the fixed enumeration order of FACTORY_DATABASE. -/
def allFactoryNames : List FactoryName :=
  [.lumber_mill, .gear_workshop, .steel_factory, .wood_workshop, .paper_mill,
   .printing_press, .observatory, .bot_part_factory, .bot_assembler,
   .explosives_factory, .grillmist, .centrifuge]

/-- machines.py: FACTORY_DATABASE (consumer power rates; build costs are 0). -/
def FACTORY_DATABASE : FactoryName → MachineSpec
  | .lumber_mill => ⟨50, 0⟩
  | .gear_workshop => ⟨120, 0⟩
  | .steel_factory => ⟨200, 0⟩
  | .wood_workshop => ⟨250, 0⟩
  | .paper_mill => ⟨80, 0⟩
  | .printing_press => ⟨150, 0⟩
  | .observatory => ⟨200, 0⟩
  | .bot_part_factory => ⟨150, 0⟩
  | .bot_assembler => ⟨250, 0⟩
  | .explosives_factory => ⟨150, 0⟩
  | .grillmist => ⟨60, 0⟩
  | .centrifuge => ⟨200, 0⟩

/-- machines.py: ProducerName. -/
inductive ProducerName
  | water_wheel
  | windmill
  | large_windmill
  | power_wheel
deriving DecidableEq

/-- machines.py: PRODUCER_DATABASE. -/
def PRODUCER_DATABASE : ProducerName → MachineSpec
  | .water_wheel => ⟨150, 50⟩
  | .windmill => ⟨150, 40⟩
  | .large_windmill => ⟨300, 75⟩
  | .power_wheel => ⟨50, 50⟩

/-- machines.py: BatterySpec. -/
structure BatterySpec where
  base_capacity : ℚ
  capacity_per_height : ℚ
  base_cost : ℚ
  cost_per_height : ℚ

/-- machines.py: GRAVITY_BATTERY = BatterySpec(4000, 2000, 84, 6). -/
def GRAVITY_BATTERY : BatterySpec :=
  { base_capacity := 4000, capacity_per_height := 2000, base_cost := 84, cost_per_height := 6 }

/-- machines.py: battery_capacity(height). -/
def battery_capacity (height : ℚ) : ℚ :=
  GRAVITY_BATTERY.base_capacity + height * GRAVITY_BATTERY.capacity_per_height

/-- machines.py: battery_cost(height). -/
def battery_cost (height : ℚ) : ℚ :=
  GRAVITY_BATTERY.base_cost + height * GRAVITY_BATTERY.cost_per_height

/-- models.py / simulation/models.py: the energy-mix configuration record
(non-negative producer counts, battery count and battery height). -/
structure EnergyMixParams where
  power_wheel : ℕ
  water_wheel : ℕ
  large_windmill : ℕ
  windmill : ℕ
  battery : ℕ
  battery_height : ℚ
deriving DecidableEq

/-- models.py: the factory (consumer) counts. -/
def FactoryParams : Type := FactoryName → ℕ

/-- models.py: SimulationParams (days, working hours, season day-counts,
factory counts, energy mix). -/
structure SimulationParams where
  days : ℕ
  working_hours : ℕ
  wet_season_days : ℕ
  dry_season_days : ℕ
  badtide_season_days : ℕ
  factories : FactoryParams
  energy_mix : EnergyMixParams

/-- simulation.py lines 15-20: total consumption rate, summed over the
factory database in its fixed enumeration order. -/
def totalConsumptionRate (factories : FactoryParams) : ℚ :=
  (allFactoryNames.map (fun n => (factories n : ℚ) * (FACTORY_DATABASE n).power)).sum

/-- simulation/helpers.py: calculate_total_battery_capacity (also
simulation.py lines 50-53: num_batteries * battery_capacity(height)). -/
def calculate_total_battery_capacity (mix : EnergyMixParams) : ℚ :=
  (mix.battery : ℚ) * battery_capacity mix.battery_height

/-- simulation/helpers.py: calculate_total_cost (the identical formula is
inlined in simulation.py lines 56-63). -/
def calculate_total_cost (mix : EnergyMixParams) : ℚ :=
  (mix.power_wheel : ℚ) * (PRODUCER_DATABASE .power_wheel).cost
    + (mix.water_wheel : ℚ) * (PRODUCER_DATABASE .water_wheel).cost
    + (mix.large_windmill : ℚ) * (PRODUCER_DATABASE .large_windmill).cost
    + (mix.windmill : ℚ) * (PRODUCER_DATABASE .windmill).cost
    + (mix.battery : ℚ) * battery_cost mix.battery_height

/-- simulation/core.py lines 171-180 and simulation.py lines 91-100:
per-unit wind output of one tier, np.where(strength > threshold,
strength * power, 0). -/
def windUnitProd (threshold power s : ℚ) : ℚ :=
  if s > threshold then s * power else 0

/-- simulation/models.py: ProducerGroup(count, power). -/
structure ProducerGroup where
  count : ℕ
  power : ℚ

/-- One iteration of the battery fold, simulation/core.py lines 191-202 and
simulation.py lines 157-179: charge if surplus > 0, else discharge. -/
def batteryStep (capacity charge surplus : ℚ) : ℚ :=
  if surplus > 0 then charge + min surplus (capacity - charge)
  else charge - min (-surplus) charge

/-- The battery fold over the surplus series, recording the charge after each
hour (simulation/core.py lines 188-202). -/
def batteryChargeFrom (capacity : ℚ) : ℚ → List ℚ → List ℚ
  | _, [] => []
  | charge, s :: rest =>
      batteryStep capacity charge s
        :: batteryChargeFrom capacity (batteryStep capacity charge s) rest

/-- simulation/models.py: SimulationSample. -/
structure SimulationSample where
  power_production : List ℚ
  battery_charge : List ℚ
deriving DecidableEq

/-- simulation/core.py: jit_stochastic_simulation, with the RNG-generated
wind-strength profile passed explicitly. -/
def jit_stochastic_simulation (total_hours : ℕ)
    (base_power_production power_consumption : ℕ → ℚ)
    (large_windmills windmills : ProducerGroup)
    (total_battery_capacity : ℚ) (wind_strength_profile : ℕ → ℚ) :
    SimulationSample :=
  let wind_production : ℕ → ℚ := fun i =>
    (large_windmills.count : ℚ)
        * windUnitProd LARGE_WINDMILL_THRESHOLD large_windmills.power (wind_strength_profile i)
      + (windmills.count : ℚ)
        * windUnitProd WINDMILL_THRESHOLD windmills.power (wind_strength_profile i)
  let power_production : ℕ → ℚ := fun i => base_power_production i + wind_production i
  let power_surplus : List ℚ :=
    (List.range total_hours).map (fun i => power_production i - power_consumption i)
  { power_production := (List.range total_hours).map power_production,
    battery_charge :=
      batteryChargeFrom total_battery_capacity (total_battery_capacity / 2) power_surplus }

/-- simulation.py line 129 / core.py line 82: working-hour predicate. -/
def isWorkingHour (working_hours h : ℕ) : Bool :=
  decide (h % HOURS_PER_DAY < working_hours)

/-- simulation/core.py lines 84-95: hydro (water wheel) season activity for
the Wet, Dry, Wet, Badtide cycle, in hour units. -/
def isWaterActive (wet_days dry_days badtide_days h : ℕ) : Bool :=
  let hours_per_wet := wet_days * HOURS_PER_DAY
  let hours_per_dry := dry_days * HOURS_PER_DAY
  let hours_per_badtide := badtide_days * HOURS_PER_DAY
  let cycle_length_hours := 2 * hours_per_wet + hours_per_dry + hours_per_badtide
  let hour_of_cycle := h % cycle_length_hours
  decide (hour_of_cycle < hours_per_wet)
    || (decide (hours_per_wet + hours_per_dry ≤ hour_of_cycle)
        && decide (hour_of_cycle < 2 * hours_per_wet + hours_per_dry))
    || decide (2 * hours_per_wet + hours_per_dry ≤ hour_of_cycle)

/-- simulation.py lines 130-140 / core.py lines 99-106: deterministic (wind
independent) production: season-gated water wheels plus working-hour-gated
power wheels. -/
def basePowerProduction (params : SimulationParams) (h : ℕ) : ℚ :=
  (if isWaterActive params.wet_season_days params.dry_season_days
        params.badtide_season_days h then
      (params.energy_mix.water_wheel : ℚ) * (PRODUCER_DATABASE .water_wheel).power
    else 0)
    + (if isWorkingHour params.working_hours h then
        (params.energy_mix.power_wheel : ℚ) * (PRODUCER_DATABASE .power_wheel).power
      else 0)

/-- simulation.py line 144 / core.py line 97: consumption profile. -/
def powerConsumption (params : SimulationParams) (h : ℕ) : ℚ :=
  if isWorkingHour params.working_hours h then totalConsumptionRate params.factories else 0

/-- The fields of simulation.py's SimulationResult that the claims read. -/
structure SimulationResultS where
  power_production : List ℚ
  power_consumption : List ℚ
  power_surplus : List ℚ
  battery_charge : List ℚ
  total_battery_capacity : ℚ
  total_cost : ℚ

/-- simulation.py: simulate_scenario, with the RNG abstracted into the
wind-strength series it draws. -/
def simulate_scenario (params : SimulationParams) (wind : ℕ → ℚ) : SimulationResultS :=
  let total_hours := params.days * HOURS_PER_DAY
  let capacity := calculate_total_battery_capacity params.energy_mix
  let sample := jit_stochastic_simulation total_hours
    (basePowerProduction params) (powerConsumption params)
    ⟨params.energy_mix.large_windmill, (PRODUCER_DATABASE .large_windmill).power⟩
    ⟨params.energy_mix.windmill, (PRODUCER_DATABASE .windmill).power⟩
    capacity wind
  { power_production := sample.power_production,
    power_consumption := (List.range total_hours).map (powerConsumption params),
    power_surplus :=
      (List.range total_hours).map
        (fun i => (basePowerProduction params i
            + ((params.energy_mix.large_windmill : ℚ)
                * windUnitProd LARGE_WINDMILL_THRESHOLD (PRODUCER_DATABASE .large_windmill).power (wind i)
              + (params.energy_mix.windmill : ℚ)
                * windUnitProd WINDMILL_THRESHOLD (PRODUCER_DATABASE .windmill).power (wind i)))
          - powerConsumption params i),
    battery_charge := sample.battery_charge,
    total_battery_capacity := capacity,
    total_cost :=
      (params.energy_mix.power_wheel : ℚ) * (PRODUCER_DATABASE .power_wheel).cost
        + (params.energy_mix.water_wheel : ℚ) * (PRODUCER_DATABASE .water_wheel).cost
        + (params.energy_mix.large_windmill : ℚ) * (PRODUCER_DATABASE .large_windmill).cost
        + (params.energy_mix.windmill : ℚ) * (PRODUCER_DATABASE .windmill).cost
        + (params.energy_mix.battery : ℚ) * battery_cost params.energy_mix.battery_height }

/-- simulation.py line 228: hours_empty = np.sum(battery_charge <= 0). -/
def hoursEmptyOf (charges : List ℚ) : ℕ :=
  charges.countP (fun c => decide (c ≤ 0))

/-- simulation.py: run_simulation_task returns (hours_empty, data). -/
def run_simulation_task (params : SimulationParams) (wind : ℕ → ℚ) :
    ℕ × SimulationResultS :=
  let data := simulate_scenario params wind
  (hoursEmptyOf data.battery_charge, data)

/-- Helper loop for np.argmax: scans the tail keeping the first index of the
maximum seen so far (numpy returns the first occurrence of the maximum). -/
def argmaxGo : List ℚ → ℚ → ℕ → ℕ → ℕ
  | [], _, best, _ => best
  | y :: ys, bestVal, best, i =>
      if bestVal < y then argmaxGo ys y i (i + 1) else argmaxGo ys bestVal best (i + 1)

/-- np.argmax over a rational array: first index of the maximum; none models
the ValueError numpy raises on an empty array. -/
def np_argmax : List ℚ → Option ℕ
  | [] => none
  | x :: xs => some (argmaxGo xs x 0 1)

/-- np.mean over a rational array (only reached on nonempty input on the
modelled paths). -/
def np_mean (l : List ℚ) : ℚ := l.sum / (l.length : ℚ)

/-- simulation/models.py: AggregatedSamples (the fields the claims read). -/
structure AggregatedSamples where
  hours_empty_results : List ℚ
  final_surpluses : List ℚ
deriving DecidableEq

/-- simulation/models.py: ParallelSimulationResult. -/
structure ParallelSimulationResult where
  worst_sample : SimulationSample
  aggregated_samples : AggregatedSamples
deriving DecidableEq

/-- simulation/models.py: the SimulationConfig fields the aggregate path reads. -/
structure SimulationConfigS where
  samples : ℕ
  days : ℕ
  working_hours : ℕ
  wet_days : ℕ
  dry_days : ℕ
  badtide_days : ℕ
  factories : FactoryParams
  energy_mix : EnergyMixParams

/-- Deterministic production shared by all samples, core.py lines 97-106,
assembled from the config fields the way jit_parallel_simulation does. -/
def basePowerProductionCfg (config : SimulationConfigS) (h : ℕ) : ℚ :=
  (if isWaterActive config.wet_days config.dry_days config.badtide_days h then
      (config.energy_mix.water_wheel : ℚ) * (PRODUCER_DATABASE .water_wheel).power
    else 0)
    + (if isWorkingHour config.working_hours h then
        (config.energy_mix.power_wheel : ℚ) * (PRODUCER_DATABASE .power_wheel).power
      else 0)

/-- core.py line 97: consumption profile of the aggregate path. -/
def powerConsumptionCfg (config : SimulationConfigS) (h : ℕ) : ℚ :=
  if isWorkingHour config.working_hours h then totalConsumptionRate config.factories else 0

/-- simulation/core.py: jit_parallel_simulation, with each sample's RNG draw
abstracted into a wind-strength series (winds s gives sample s's series).
Returns none where the source raises: np.argmax of the empty
hours_empty_results array when config.samples = 0. -/
def jit_parallel_simulation (config : SimulationConfigS)
    (total_battery_capacity : ℚ) (winds : ℕ → ℕ → ℚ) :
    Option ParallelSimulationResult :=
  let total_hours := config.days * HOURS_PER_DAY
  let power_consumption := (List.range total_hours).map (powerConsumptionCfg config)
  let samplesList :=
    (List.range config.samples).map (fun s =>
      jit_stochastic_simulation total_hours
        (basePowerProductionCfg config) (powerConsumptionCfg config)
        ⟨config.energy_mix.large_windmill, (PRODUCER_DATABASE .large_windmill).power⟩
        ⟨config.energy_mix.windmill, (PRODUCER_DATABASE .windmill).power⟩
        total_battery_capacity (winds s))
  let hours_empty_results := samplesList.map (fun r => (hoursEmptyOf r.battery_charge : ℚ))
  let final_surpluses :=
    samplesList.map (fun r => r.power_production.sum - power_consumption.sum)
  match np_argmax hours_empty_results with
  | none => none
  | some worst_idx =>
      some { worst_sample := samplesList.getD worst_idx ⟨[], []⟩,
             aggregated_samples :=
               { hours_empty_results := hours_empty_results,
                 final_surpluses := final_surpluses } }

/-- simulation/models.py: SimulationResult of the aggregate path. -/
structure AggSimulationResult where
  hours_empty_results : List ℚ
  worst_sample : SimulationSample
  average_final_surplus : ℚ
deriving DecidableEq

/-- simulation/core.py: run_simulation; none models the ValueError raised
inside jit_parallel_simulation. -/
def run_simulation (config : SimulationConfigS) (winds : ℕ → ℕ → ℚ) :
    Option AggSimulationResult :=
  let total_battery_capacity := calculate_total_battery_capacity config.energy_mix
  match jit_parallel_simulation config total_battery_capacity winds with
  | none => none
  | some parallel_res =>
      some { hours_empty_results := parallel_res.aggregated_samples.hours_empty_results,
             worst_sample := parallel_res.worst_sample,
             average_final_surplus := np_mean parallel_res.aggregated_samples.final_surpluses }

/-- optimizer.py: OptimizationResult (params, cost, p95_hours_empty,
total_hours, energy_surplus). -/
structure OptimizationResult where
  params : EnergyMixParams
  cost : ℚ
  p95_hours_empty : ℚ
  total_hours : ℕ
  energy_surplus : ℚ
deriving DecidableEq

/-- optimizer.py lines 29-35: the p95_empty_percent property. -/
def p95_empty_percent (r : OptimizationResult) : ℚ :=
  if r.total_hours > 0 then r.p95_hours_empty / (r.total_hours : ℚ) * 100 else 0

/-- optimizer.py lines 37-40: is_valid (reliability met and no energy
deficit), as the boolean the filter uses. -/
def is_validB (r : OptimizationResult) : Bool :=
  decide (p95_empty_percent r ≤ 5) && decide (r.energy_surplus ≥ 0)

/-- optimizer.py lines 42-60: calculate_score. -/
def calculate_score (r : OptimizationResult) : ℚ :=
  if r.energy_surplus < 0 then 10 ^ 12 + |r.energy_surplus|
  else if p95_empty_percent r > 5 then 10 ^ 9 + p95_empty_percent r
  else r.cost

/-- optimizer.py lines 331-340: the deduplication key of a configuration. -/
def paramsKey (p : EnergyMixParams) : ℕ × ℕ × ℕ × ℕ × ℕ × ℚ :=
  (p.power_wheel, p.water_wheel, p.large_windmill, p.windmill, p.battery, p.battery_height)

/-- optimizer.py lines 327-343: the duplicate-removal loop over the sorted
valid solutions, threading the seen_params set. -/
def dedupByKey : List OptimizationResult → List (ℕ × ℕ × ℕ × ℕ × ℕ × ℚ) →
    List OptimizationResult
  | [], _ => []
  | r :: rest, seen =>
      if paramsKey r.params ∈ seen then dedupByKey rest seen
      else r :: dedupByKey rest (paramsKey r.params :: seen)

/-- The comparison list.sort(key=lambda x: x.cost) sorts by (Python's sort is
a stable ascending sort). -/
def costLe (a b : OptimizationResult) : Bool := decide (a.cost ≤ b.cost)

/-- optimizer.py: find_optimal_solutions. The max_empty_percent parameter is
carried like in the source, where the filter ignores it and uses is_valid
(which hardcodes the 5 percent threshold). -/
def find_optimal_solutions (results : List OptimizationResult)
    (max_empty_percent : ℚ := 5) : List OptimizationResult :=
  let valid_solutions := results.filter is_validB
  let sorted_solutions := valid_solutions.mergeSort costLe
  dedupByKey sorted_solutions []

/-- The charge recurrence in the words of the spec, from an arbitrary
starting charge: if the hour's surplus is positive the stored amount is
min(surplus, capacity - charge), otherwise the amount drawn is
min(-surplus, charge); the value at n + 1 is the charge recorded for hour n. -/
def specChargeAux (capacity c0 : ℚ) (surplus : ℕ → ℚ) : ℕ → ℚ
  | 0 => c0
  | n + 1 =>
      let charge := specChargeAux capacity c0 surplus n
      if surplus n > 0 then charge + min (surplus n) (capacity - charge)
      else charge - min (-(surplus n)) charge

/-- The spec's battery recurrence: the charge before hour 0 is
total_battery_capacity / 2. -/
def specChargeRecurrence (capacity : ℚ) (surplus : ℕ → ℚ) : ℕ → ℚ :=
  specChargeAux capacity (capacity / 2) surplus

/-- Replace only the battery count and battery height of a configuration. -/
def withBattery (params : SimulationParams) (b : ℕ) (h : ℚ) : SimulationParams :=
  { params with
      energy_mix := { params.energy_mix with battery := b, battery_height := h } }

/-- optimizer.py lines 232-240: the default search bounds, as a predicate on
an energy mix lying within them. -/
def inDefaultBounds (p : EnergyMixParams) : Prop :=
  p.power_wheel ≤ 20 ∧ p.water_wheel ≤ 20 ∧ p.large_windmill ≤ 30
    ∧ p.windmill ≤ 30 ∧ p.battery ≤ 20
    ∧ 1 ≤ p.battery_height ∧ p.battery_height ≤ 20

/-- The energy mix of the concrete scenario: windmill: 4, battery: 1,
battery_height: 1, all other counts zero. -/
def mixScenario : EnergyMixParams :=
  { power_wheel := 0, water_wheel := 0, large_windmill := 0,
    windmill := 4, battery := 1, battery_height := 1 }

/-- The factory counts of the concrete scenario: lumber_mill: 1,
wood_workshop: 1, all others zero. -/
def factoriesScenario : FactoryParams := fun n =>
  match n with
  | .lumber_mill => 1
  | .wood_workshop => 1
  | _ => 0

/-- An all-zero energy mix, used as a concrete input. -/
def mixZero : EnergyMixParams :=
  { power_wheel := 0, water_wheel := 0, large_windmill := 0,
    windmill := 0, battery := 0, battery_height := 0 }

/-- A one-day simulation over an all-zero grid, used as a concrete input. -/
def paramsZero : SimulationParams :=
  { days := 1, working_hours := 16, wet_season_days := 3, dry_season_days := 30,
    badtide_season_days := 30, factories := fun _ => 0, energy_mix := mixZero }

/-- The concrete scenario with one simulated day. -/
def paramsScenario : SimulationParams :=
  { days := 1, working_hours := 16, wet_season_days := 3, dry_season_days := 30,
    badtide_season_days := 30, factories := factoriesScenario, energy_mix := mixScenario }

/-- An otherwise-valid aggregate configuration with sample_count = 0. -/
def cfgZeroSamples : SimulationConfigS :=
  { samples := 0, days := 1, working_hours := 16, wet_days := 3, dry_days := 30,
    badtide_days := 30, factories := factoriesScenario, energy_mix := mixScenario }

/-- An otherwise-valid aggregate configuration with day_count = 0 and two
samples. -/
def cfgZeroDays : SimulationConfigS :=
  { samples := 2, days := 0, working_hours := 16, wet_days := 3, dry_days := 30,
    badtide_days := 30, factories := factoriesScenario, energy_mix := mixScenario }

/-- A candidate whose p95 empty percentage is 7 (above the hardcoded 5 but
below a caller-supplied target of 10), with no energy deficit. -/
def candSeven : OptimizationResult :=
  { params := mixZero, cost := 100, p95_hours_empty := 7, total_hours := 100,
    energy_surplus := 0 }

/-- A deficit candidate over a bounded configuration. -/
def candDeficit : OptimizationResult :=
  { params := { mixZero with battery_height := 1 }, cost := 0, p95_hours_empty := 0,
    total_hours := 100, energy_surplus := -1 }

/-- A fed but unreliable candidate (p95 empty percent 50). -/
def candUnreliable : OptimizationResult :=
  { params := { mixZero with battery_height := 1 }, cost := 0, p95_hours_empty := 50,
    total_hours := 100, energy_surplus := 0 }

/-- A feasible candidate whose cost is the build cost of a bounded
configuration. -/
def candFeasible : OptimizationResult :=
  { params := { mixZero with battery_height := 1 },
    cost := calculate_total_cost { mixZero with battery_height := 1 },
    p95_hours_empty := 0, total_hours := 100, energy_surplus := 0 }

/-- A candidate that is infeasible under the hardcoded threshold. -/
def candInfeasible : OptimizationResult :=
  { params := mixZero, cost := 1, p95_hours_empty := 50, total_hours := 100,
    energy_surplus := 0 }

/-- A feasible candidate with the same configuration as candFeasible but a
higher cost, used to exercise deduplication. -/
def candFeasibleDup : OptimizationResult :=
  { params := { mixZero with battery_height := 1 }, cost := 500,
    p95_hours_empty := 0, total_hours := 100, energy_surplus := 0 }

/-- Closed form of one battery step: clamp charging at capacity, clamp
discharging at empty. -/
theorem batteryStep_closed (cap c s : ℚ) :
    batteryStep cap c s = if s > 0 then min (c + s) cap else max (c + s) 0 := by
  unfold batteryStep
  split
  · rcases le_total s (cap - c) with h2 | h2
    · rw [min_eq_left h2, min_eq_left (by linarith : c + s ≤ cap)]
    · rw [min_eq_right h2, min_eq_right (by linarith : cap ≤ c + s)]
      ring
  · rename_i h
    have hs : s ≤ 0 := not_lt.mp h
    rcases le_total (-s) c with h2 | h2
    · rw [min_eq_left h2, max_eq_left (by linarith : (0 : ℚ) ≤ c + s)]
      ring
    · rw [min_eq_right h2, max_eq_right (by linarith : c + s ≤ 0)]
      ring

/-- One battery step keeps the charge inside [0, capacity]. -/
theorem batteryStep_bounds (cap c s : ℚ) (hcap : 0 ≤ cap) (h0 : 0 ≤ c) (h1 : c ≤ cap) :
    0 ≤ batteryStep cap c s ∧ batteryStep cap c s ≤ cap := by
  rw [batteryStep_closed]
  split
  · rename_i h
    exact ⟨le_min (by linarith) hcap, min_le_right _ _⟩
  · exact ⟨le_max_right _ _, max_le (by linarith [le_max_left (c + s) (0 : ℚ)]) hcap⟩

/-- One battery step is monotone in both the capacity and the charge. -/
theorem batteryStep_mono (cap1 cap2 c1 c2 s : ℚ) (hcap : cap1 ≤ cap2) (hc : c1 ≤ c2) :
    batteryStep cap1 c1 s ≤ batteryStep cap2 c2 s := by
  rw [batteryStep_closed, batteryStep_closed]
  split
  · exact min_le_min (by linarith) hcap
  · exact max_le_max (by linarith) le_rfl

/-- The fold records one charge per hour. -/
theorem batteryChargeFrom_length (cap : ℚ) :
    ∀ (l : List ℚ) (c : ℚ), (batteryChargeFrom cap c l).length = l.length := by
  intro l
  induction l with
  | nil => intro c; rfl
  | cons s rest ih => intro c; simp [batteryChargeFrom, ih]

/-- Every recorded charge of the fold lies in [0, capacity] as soon as the
starting charge does. -/
theorem batteryChargeFrom_mem_bounds (cap : ℚ) (hcap : 0 ≤ cap) :
    ∀ (l : List ℚ) (c : ℚ), 0 ≤ c → c ≤ cap →
      ∀ x ∈ batteryChargeFrom cap c l, 0 ≤ x ∧ x ≤ cap := by
  intro l
  induction l with
  | nil => intro c _ _ x hx; simp [batteryChargeFrom] at hx
  | cons s rest ih =>
      intro c h0 h1 x hx
      obtain ⟨hs0, hs1⟩ := batteryStep_bounds cap c s hcap h0 h1
      rcases List.mem_cons.mp hx with rfl | hx2
      · exact ⟨hs0, hs1⟩
      · exact ih _ hs0 hs1 x hx2

/-- With a larger capacity and a larger starting charge, the fold records a
pointwise larger charge series on the same surplus series. -/
theorem batteryChargeFrom_mono (cap1 cap2 : ℚ) (hcap : cap1 ≤ cap2) :
    ∀ (l : List ℚ) (c1 c2 : ℚ), c1 ≤ c2 →
      List.Forall₂ (· ≤ ·) (batteryChargeFrom cap1 c1 l) (batteryChargeFrom cap2 c2 l) := by
  intro l
  induction l with
  | nil => intro c1 c2 _; exact List.Forall₂.nil
  | cons s rest ih =>
      intro c1 c2 hc
      exact List.Forall₂.cons (batteryStep_mono _ _ _ _ _ hcap hc)
        (ih _ _ (batteryStep_mono _ _ _ _ _ hcap hc))

/-- Counting nonpositive entries is antitone along a pointwise comparison. -/
theorem countP_nonpos_antitone :
    ∀ {l1 l2 : List ℚ}, List.Forall₂ (· ≤ ·) l1 l2 →
      l2.countP (fun c => decide (c ≤ 0)) ≤ l1.countP (fun c => decide (c ≤ 0)) := by
  intro l1 l2 h
  induction h with
  | nil => exact le_rfl
  | @cons a b l1' l2' hab _ ih =>
      rw [List.countP_cons, List.countP_cons]
      by_cases hb : b ≤ 0
      · have ha : a ≤ 0 := le_trans hab hb
        rw [if_pos (decide_eq_true hb), if_pos (decide_eq_true ha)]
        omega
      · rw [if_neg (by simpa using hb)]
        omega

/-- One unfolding of the spec recurrence is one battery step. -/
theorem specChargeAux_succ (cap c0 : ℚ) (g : ℕ → ℚ) (n : ℕ) :
    specChargeAux cap c0 g (n + 1) =
      batteryStep cap (specChargeAux cap c0 g n) (g n) := rfl

/-- Unfolding the spec recurrence from the far end: one step at the start. -/
theorem specChargeAux_shift (cap c0 : ℚ) (g : ℕ → ℚ) :
    ∀ n : ℕ, specChargeAux cap c0 g (n + 1) =
      specChargeAux cap (batteryStep cap c0 (g 0)) (fun k => g (k + 1)) n := by
  intro n
  induction n with
  | zero => rfl
  | succ m ih =>
      rw [specChargeAux_succ cap c0 g (m + 1), ih,
        specChargeAux_succ cap (batteryStep cap c0 (g 0)) (fun k => g (k + 1)) m]

/-- The charges the fold records agree with the spec recurrence started at
an arbitrary charge. -/
theorem batteryChargeFrom_getD (cap : ℚ) :
    ∀ (l : List ℚ) (c0 : ℚ) (i : ℕ), i < l.length →
      (batteryChargeFrom cap c0 l).getD i 0 =
        specChargeAux cap c0 (fun n => l.getD n 0) (i + 1) := by
  intro l
  induction l with
  | nil => intro c0 i hi; simp at hi
  | cons s rest ih =>
      intro c0 i hi
      cases i with
      | zero =>
          simp only [batteryChargeFrom, List.getD_cons_zero, specChargeAux]
          rfl
      | succ j =>
          have hj : j < rest.length := by simpa using hi
          simp only [batteryChargeFrom, List.getD_cons_succ]
          rw [ih _ j hj, specChargeAux_shift cap c0 (fun n => (s :: rest).getD n 0) (j + 1)]
          simp only [List.getD_cons_zero, List.getD_cons_succ]

/-- C1: for every configuration and every wind-strength series, the recorded
battery-charge series of the simulation obeys exactly the spec's recurrence:
charge before hour 0 is total_battery_capacity / 2; each hour stores
min(surplus, capacity - charge) when the surplus is positive, else draws
min(-surplus, charge); the recorded value is the charge after the update. -/
theorem battery_fold_recurrence (params : SimulationParams) (wind : ℕ → ℚ) (i : ℕ)
    (hi : i < params.days * HOURS_PER_DAY) :
    (simulate_scenario params wind).battery_charge.getD i 0 =
      specChargeRecurrence (simulate_scenario params wind).total_battery_capacity
        (fun n => (simulate_scenario params wind).power_surplus.getD n 0) (i + 1) := by
  have hlen : i < (simulate_scenario params wind).power_surplus.length := by
    simpa [simulate_scenario] using hi
  exact batteryChargeFrom_getD (simulate_scenario params wind).total_battery_capacity
    (simulate_scenario params wind).power_surplus
    ((simulate_scenario params wind).total_battery_capacity / 2) i hlen

/-- C1 witness: the recurrence instantiated on the concrete scenario at
hour 0. -/
theorem battery_fold_recurrence_witness :
    (simulate_scenario paramsScenario (fun _ => 0)).battery_charge.getD 0 0 =
      specChargeRecurrence (simulate_scenario paramsScenario (fun _ => 0)).total_battery_capacity
        (fun n => (simulate_scenario paramsScenario (fun _ => 0)).power_surplus.getD n 0) 1 :=
  battery_fold_recurrence paramsScenario (fun _ => 0) 0 (by norm_num [paramsScenario, HOURS_PER_DAY])

/-- C2: for every configuration with a non-negative battery height and every
wind-strength series, the battery charge recorded at every simulated hour
lies between 0 and total_battery_capacity = battery_count * (base_capacity
+ height * capacity_per_height). -/
theorem battery_charge_in_range (params : SimulationParams) (wind : ℕ → ℚ)
    (hh : 0 ≤ params.energy_mix.battery_height) (i : ℕ)
    (hi : i < params.days * HOURS_PER_DAY) :
    0 ≤ (simulate_scenario params wind).battery_charge.getD i 0 ∧
      (simulate_scenario params wind).battery_charge.getD i 0 ≤
        (params.energy_mix.battery : ℚ) *
          (GRAVITY_BATTERY.base_capacity
            + params.energy_mix.battery_height * GRAVITY_BATTERY.capacity_per_height) := by
  have hcapeq : calculate_total_battery_capacity params.energy_mix =
      (params.energy_mix.battery : ℚ) *
        (4000 + params.energy_mix.battery_height * 2000) := by
    simp [calculate_total_battery_capacity, battery_capacity, GRAVITY_BATTERY]
  have hcap : 0 ≤ calculate_total_battery_capacity params.energy_mix := by
    rw [hcapeq]
    exact mul_nonneg (Nat.cast_nonneg _) (by linarith)
  have hlen : i < (simulate_scenario params wind).battery_charge.length := by
    show i < (batteryChargeFrom _ _ _).length
    rw [batteryChargeFrom_length]
    simpa using hi
  have hmem : (simulate_scenario params wind).battery_charge.getD i 0 ∈
      (simulate_scenario params wind).battery_charge := by
    rw [List.getD_eq_getElem (simulate_scenario params wind).battery_charge 0 hlen]
    exact List.getElem_mem hlen
  have hbound := batteryChargeFrom_mem_bounds
    (calculate_total_battery_capacity params.energy_mix) hcap
    (simulate_scenario params wind).power_surplus
    (calculate_total_battery_capacity params.energy_mix / 2)
    (by linarith) (by linarith)
    ((simulate_scenario params wind).battery_charge.getD i 0) hmem
  exact hbound

/-- C2 witness: the bound instantiated on the zero-grid scenario at hour 0. -/
theorem battery_charge_in_range_witness :
    0 ≤ (simulate_scenario paramsZero (fun _ => 0)).battery_charge.getD 0 0 ∧
      (simulate_scenario paramsZero (fun _ => 0)).battery_charge.getD 0 0 ≤
        (paramsZero.energy_mix.battery : ℚ) *
          (GRAVITY_BATTERY.base_capacity
            + paramsZero.energy_mix.battery_height * GRAVITY_BATTERY.capacity_per_height) :=
  battery_charge_in_range paramsZero (fun _ => 0)
    (by norm_num [paramsZero, mixZero]) 0
    (by norm_num [paramsZero, HOURS_PER_DAY])

/-- C3: with the configuration and the wind draws held fixed, increasing
only the battery count or only the battery height never increases the
hours_empty metric the simulation task reports. -/
theorem hours_empty_monotone (params : SimulationParams) (wind : ℕ → ℚ)
    (b1 b2 : ℕ) (h1 h2 : ℚ) (hh1 : 0 ≤ h1)
    (hcase : (b1 ≤ b2 ∧ h1 = h2) ∨ (b1 = b2 ∧ h1 ≤ h2)) :
    (run_simulation_task (withBattery params b2 h2) wind).1
      ≤ (run_simulation_task (withBattery params b1 h1) wind).1 := by
  have hcapeq : ∀ (b : ℕ) (h : ℚ),
      calculate_total_battery_capacity (withBattery params b h).energy_mix =
        (b : ℚ) * (4000 + h * 2000) := by
    intro b h
    simp [withBattery, calculate_total_battery_capacity, battery_capacity, GRAVITY_BATTERY]
  have hcap : calculate_total_battery_capacity (withBattery params b1 h1).energy_mix ≤
      calculate_total_battery_capacity (withBattery params b2 h2).energy_mix := by
    rw [hcapeq, hcapeq]
    rcases hcase with ⟨hb, hh⟩ | ⟨hb, hh⟩
    · rw [hh]
      have hpos : (0 : ℚ) ≤ 4000 + h2 * 2000 := by
        rw [← hh]
        linarith
      exact mul_le_mul_of_nonneg_right (by exact_mod_cast hb) hpos
    · rw [hb]
      exact mul_le_mul_of_nonneg_left (by linarith) (Nat.cast_nonneg _)
  have hsur : (simulate_scenario (withBattery params b2 h2) wind).power_surplus =
      (simulate_scenario (withBattery params b1 h1) wind).power_surplus := rfl
  show hoursEmptyOf (simulate_scenario (withBattery params b2 h2) wind).battery_charge
    ≤ hoursEmptyOf (simulate_scenario (withBattery params b1 h1) wind).battery_charge
  have hch : ∀ (b : ℕ) (h : ℚ),
      (simulate_scenario (withBattery params b h) wind).battery_charge =
        batteryChargeFrom (calculate_total_battery_capacity (withBattery params b h).energy_mix)
          (calculate_total_battery_capacity (withBattery params b h).energy_mix / 2)
          (simulate_scenario (withBattery params b h) wind).power_surplus := by
    intro b h
    rfl
  rw [hch, hch, hsur]
  exact countP_nonpos_antitone
    (batteryChargeFrom_mono _ _ hcap
      (simulate_scenario (withBattery params b1 h1) wind).power_surplus _ _
      (by linarith))

/-- C3 witness: two batteries report at most as many empty hours as one
battery on the concrete scenario with calm wind. -/
theorem hours_empty_monotone_witness :
    (run_simulation_task (withBattery paramsScenario 2 1) (fun _ => 0)).1
      ≤ (run_simulation_task (withBattery paramsScenario 1 1) (fun _ => 0)).1 :=
  hours_empty_monotone paramsScenario (fun _ => 0) 1 2 1 1 (by norm_num)
    (Or.inl ⟨by norm_num, rfl⟩)

/-- C4 counterexample: at a drawn strength exactly equal to the large tier's
threshold (0.20), the code outputs 0, not strength times the power rate (60),
because the comparison is strict. -/
theorem wind_threshold_counterexample :
    LARGE_WINDMILL_THRESHOLD = (1 / 5 : ℚ) ∧
    windUnitProd LARGE_WINDMILL_THRESHOLD
        (PRODUCER_DATABASE .large_windmill).power (1 / 5) = 0 ∧
    (1 / 5 : ℚ) * (PRODUCER_DATABASE .large_windmill).power = 60 ∧
    (0 : ℚ) ≠ 60 := by
  refine ⟨by norm_num [LARGE_WINDMILL_THRESHOLD], ?_, by norm_num [PRODUCER_DATABASE], by norm_num⟩
  rw [windUnitProd, if_neg (by norm_num [LARGE_WINDMILL_THRESHOLD])]

/-- C4 (amended): each tier's per-unit output is zero at or below its
threshold (0.20 large, 0.30 small) and strength times the tier's power rate
strictly above it. -/
theorem wind_threshold_amended (s : ℚ) :
    (s ≤ LARGE_WINDMILL_THRESHOLD →
      windUnitProd LARGE_WINDMILL_THRESHOLD (PRODUCER_DATABASE .large_windmill).power s = 0) ∧
    (LARGE_WINDMILL_THRESHOLD < s →
      windUnitProd LARGE_WINDMILL_THRESHOLD (PRODUCER_DATABASE .large_windmill).power s =
        s * (PRODUCER_DATABASE .large_windmill).power) ∧
    (s ≤ WINDMILL_THRESHOLD →
      windUnitProd WINDMILL_THRESHOLD (PRODUCER_DATABASE .windmill).power s = 0) ∧
    (WINDMILL_THRESHOLD < s →
      windUnitProd WINDMILL_THRESHOLD (PRODUCER_DATABASE .windmill).power s =
        s * (PRODUCER_DATABASE .windmill).power) := by
  refine ⟨fun h => ?_, fun h => ?_, fun h => ?_, fun h => ?_⟩
  · rw [windUnitProd, if_neg (not_lt.mpr h)]
  · rw [windUnitProd, if_pos h]
  · rw [windUnitProd, if_neg (not_lt.mpr h)]
  · rw [windUnitProd, if_pos h]

/-- C4 witness: the amended tier rule applied above the large threshold and
below the small threshold. -/
theorem wind_threshold_amended_witness :
    windUnitProd LARGE_WINDMILL_THRESHOLD (PRODUCER_DATABASE .large_windmill).power (1 / 2) =
        (1 / 2 : ℚ) * (PRODUCER_DATABASE .large_windmill).power ∧
    windUnitProd WINDMILL_THRESHOLD (PRODUCER_DATABASE .windmill).power (1 / 10) = 0 :=
  ⟨(wind_threshold_amended (1 / 2)).2.1 (by norm_num [LARGE_WINDMILL_THRESHOLD]),
   (wind_threshold_amended (1 / 10)).2.2.1 (by norm_num [WINDMILL_THRESHOLD])⟩

/-- C7: with lumber_mill: 1, wood_workshop: 1, windmill: 4, battery: 1,
battery_height: 1 and every other count zero, the reported total_cost is
exactly 250 = 4 * 40 + (84 + 1 * 6), whatever the wind draws and the other
simulation options are. -/
theorem total_cost_concrete (days working_hours wet dry badtide : ℕ) (wind : ℕ → ℚ) :
    (simulate_scenario
      { days := days, working_hours := working_hours, wet_season_days := wet,
        dry_season_days := dry, badtide_season_days := badtide,
        factories := factoriesScenario, energy_mix := mixScenario } wind).total_cost = 250 := by
  norm_num [simulate_scenario, mixScenario, PRODUCER_DATABASE, battery_cost, GRAVITY_BATTERY]

/-- C8: the reported cost is a function of the configuration alone; two runs
with the same configuration and different wind draws report the same
total_cost. -/
theorem cost_pure_function (params : SimulationParams) (w1 w2 : ℕ → ℚ) :
    (simulate_scenario params w1).total_cost = (simulate_scenario params w2).total_cost := rfl

/-- C10: the p95_empty_percent property is total: it equals
(p95_hours_empty / total_hours) * 100 when total_hours is positive and 0
when total_hours is zero. -/
theorem p95_empty_percent_total (r : OptimizationResult) :
    (0 < r.total_hours →
      p95_empty_percent r = r.p95_hours_empty / (r.total_hours : ℚ) * 100) ∧
    (r.total_hours = 0 → p95_empty_percent r = 0) := by
  constructor
  · intro h
    rw [p95_empty_percent, if_pos h]
  · intro h
    rw [p95_empty_percent, if_neg (by omega)]

/-- C10 witness: the percentage formula on a 100 hour horizon and the zero
fallback on a 0 hour horizon. -/
theorem p95_empty_percent_total_witness :
    p95_empty_percent candUnreliable =
        candUnreliable.p95_hours_empty / (candUnreliable.total_hours : ℚ) * 100 ∧
    p95_empty_percent { candUnreliable with total_hours := 0 } = 0 :=
  ⟨(p95_empty_percent_total candUnreliable).1 (by norm_num [candUnreliable]),
   (p95_empty_percent_total { candUnreliable with total_hours := 0 }).2 rfl⟩

/-- C5: the score is 1e12 + |surplus| on a deficit, 1e9 + p95 percent on a
fed but unreliable candidate, and the build cost otherwise; and for
candidates produced inside the default search bounds, every deficit
candidate scores worse than every fed-but-unreliable one, which scores
worse than every feasible one. -/
theorem calculate_score_spec :
    (∀ r : OptimizationResult,
      (r.energy_surplus < 0 → calculate_score r = 10 ^ 12 + |r.energy_surplus|) ∧
      (0 ≤ r.energy_surplus → 5 < p95_empty_percent r →
        calculate_score r = 10 ^ 9 + p95_empty_percent r) ∧
      (0 ≤ r.energy_surplus → p95_empty_percent r ≤ 5 → calculate_score r = r.cost)) ∧
    (∀ a b c : OptimizationResult, ∀ m : EnergyMixParams,
      a.energy_surplus < 0 →
      0 ≤ b.energy_surplus → 5 < p95_empty_percent b →
      0 ≤ b.p95_hours_empty → b.p95_hours_empty ≤ (b.total_hours : ℚ) →
      0 ≤ c.energy_surplus → p95_empty_percent c ≤ 5 →
      c.cost = calculate_total_cost m → inDefaultBounds m →
      calculate_score c < calculate_score b ∧ calculate_score b < calculate_score a) := by
  have hbranch : ∀ r : OptimizationResult,
      (r.energy_surplus < 0 → calculate_score r = 10 ^ 12 + |r.energy_surplus|) ∧
      (0 ≤ r.energy_surplus → 5 < p95_empty_percent r →
        calculate_score r = 10 ^ 9 + p95_empty_percent r) ∧
      (0 ≤ r.energy_surplus → p95_empty_percent r ≤ 5 → calculate_score r = r.cost) := by
    intro r
    refine ⟨fun h => ?_, fun h1 h2 => ?_, fun h1 h2 => ?_⟩
    · rw [calculate_score, if_pos h]
    · rw [calculate_score, if_neg (not_lt.mpr h1), if_pos h2]
    · rw [calculate_score, if_neg (not_lt.mpr h1), if_neg (not_lt.mpr h2)]
  refine ⟨hbranch, ?_⟩
  intro a b c m ha hb1 hb2 hb3 hb4 hc1 hc2 hc3 hm
  have hp95 : p95_empty_percent b ≤ 100 := by
    rw [p95_empty_percent]
    split
    · rename_i ht
      have htq : (0 : ℚ) < (b.total_hours : ℚ) := by exact_mod_cast ht
      have hdiv : b.p95_hours_empty / (b.total_hours : ℚ) ≤ 1 :=
        (div_le_one htq).mpr hb4
      calc b.p95_hours_empty / (b.total_hours : ℚ) * 100
          ≤ 1 * 100 := mul_le_mul_of_nonneg_right hdiv (by norm_num)
        _ = 100 := by norm_num
    · norm_num
  have hcost : calculate_total_cost m ≤ 9530 := by
    obtain ⟨hm1, hm2, hm3, hm4, hm5, hm6, hm7⟩ := hm
    have q1 : (m.power_wheel : ℚ) ≤ 20 := by exact_mod_cast hm1
    have q2 : (m.water_wheel : ℚ) ≤ 20 := by exact_mod_cast hm2
    have q3 : (m.large_windmill : ℚ) ≤ 30 := by exact_mod_cast hm3
    have q4 : (m.windmill : ℚ) ≤ 30 := by exact_mod_cast hm4
    have q5 : (m.battery : ℚ) ≤ 20 := by exact_mod_cast hm5
    have q5n : (0 : ℚ) ≤ (m.battery : ℚ) := Nat.cast_nonneg _
    have hbat : (m.battery : ℚ) * (84 + m.battery_height * 6) ≤ 20 * 204 :=
      mul_le_mul q5 (by linarith) (by linarith) (by norm_num)
    rw [calculate_total_cost, battery_cost]
    simp only [PRODUCER_DATABASE, GRAVITY_BATTERY]
    have t1 : (m.power_wheel : ℚ) * 50 ≤ 1000 := by linarith
    have t2 : (m.water_wheel : ℚ) * 50 ≤ 1000 := by linarith
    have t3 : (m.large_windmill : ℚ) * 75 ≤ 2250 := by linarith
    have t4 : (m.windmill : ℚ) * 40 ≤ 1200 := by linarith
    linarith
  have hsa : calculate_score a = 10 ^ 12 + |a.energy_surplus| := (hbranch a).1 ha
  have hsb : calculate_score b = 10 ^ 9 + p95_empty_percent b := (hbranch b).2.1 hb1 hb2
  have hsc : calculate_score c = c.cost := (hbranch c).2.2 hc1 hc2
  have habs : 0 ≤ |a.energy_surplus| := abs_nonneg _
  constructor
  · rw [hsb, hsc, hc3]
    linarith
  · rw [hsa, hsb]
    linarith

/-- C5 witness: the deficit branch formula and the strict three-tier
ordering on concrete candidates inside the default bounds. -/
theorem calculate_score_spec_witness :
    calculate_score candDeficit = 10 ^ 12 + |candDeficit.energy_surplus| ∧
    calculate_score candFeasible < calculate_score candUnreliable ∧
    calculate_score candUnreliable < calculate_score candDeficit := by
  refine ⟨(calculate_score_spec.1 candDeficit).1 (by norm_num [candDeficit]), ?_, ?_⟩
  · exact (calculate_score_spec.2 candDeficit candUnreliable candFeasible
      { mixZero with battery_height := 1 }
      (by norm_num [candDeficit])
      (by norm_num [candUnreliable])
      (by norm_num [p95_empty_percent, candUnreliable])
      (by norm_num [candUnreliable])
      (by norm_num [candUnreliable])
      (by norm_num [candFeasible])
      (by norm_num [p95_empty_percent, candFeasible])
      rfl
      (by norm_num [inDefaultBounds, mixZero])).1
  · exact (calculate_score_spec.2 candDeficit candUnreliable candFeasible
      { mixZero with battery_height := 1 }
      (by norm_num [candDeficit])
      (by norm_num [candUnreliable])
      (by norm_num [p95_empty_percent, candUnreliable])
      (by norm_num [candUnreliable])
      (by norm_num [candUnreliable])
      (by norm_num [candFeasible])
      (by norm_num [p95_empty_percent, candFeasible])
      rfl
      (by norm_num [inDefaultBounds, mixZero])).2

/-- C9 counterexample: with sample_count = 0 and an otherwise valid
configuration, the aggregate entry point does not return a result: the
worst-sample selection np.argmax runs on an empty array, which raises
(modelled as none). -/
theorem run_simulation_zero_samples_raises :
    run_simulation cfgZeroSamples (fun _ _ => 0) = none := rfl

/-- The argmax scan never moves off a running maximum on a constant tail. -/
theorem argmaxGo_replicate (c : ℚ) :
    ∀ (k best i : ℕ), argmaxGo (List.replicate k c) c best i = best := by
  intro k
  induction k with
  | zero => intro best i; rfl
  | succ m ih =>
      intro best i
      simp only [List.replicate_succ, argmaxGo, lt_irrefl, if_neg (lt_irrefl c)]
      exact ih best (i + 1)

/-- C9 (amended): with day_count = 0 and a positive sample_count the
aggregate entry point returns, without raising, the trivial result: one zero
hours_empty per sample, an empty worst sample and zero mean surplus; with
sample_count = 0 it raises instead (see the counterexample). -/
theorem run_simulation_zero_days (config : SimulationConfigS) (winds : ℕ → ℕ → ℚ)
    (hd : config.days = 0) (hs : 0 < config.samples) :
    run_simulation config winds =
      some { hours_empty_results := List.replicate config.samples 0,
             worst_sample := { power_production := [], battery_charge := [] },
             average_final_surplus := 0 } := by
  obtain ⟨samples, days, wh, wd, dd, bd, fac, mix⟩ := config
  simp only at hd hs
  subst hd
  obtain ⟨k, rfl⟩ : ∃ k, samples = k + 1 := ⟨samples - 1, by omega⟩
  simp only [run_simulation, jit_parallel_simulation, jit_stochastic_simulation,
    Nat.zero_mul, List.range_zero, List.map_nil, batteryChargeFrom, List.map_map]
  simp only [Function.comp_def, hoursEmptyOf, List.countP_nil, List.sum_nil,
    Nat.cast_zero, sub_zero, List.map_const', List.length_range]
  rw [List.replicate_succ]
  simp only [np_argmax, argmaxGo_replicate]
  simp only [List.getD_cons_zero, np_mean]
  rw [← List.replicate_succ]
  simp [List.sum_replicate]

/-- C9 witness: the trivial aggregate result on a two-sample, zero-day
configuration. -/
theorem run_simulation_zero_days_witness :
    run_simulation cfgZeroDays (fun _ _ => 0) =
      some { hours_empty_results := List.replicate 2 0,
             worst_sample := { power_production := [], battery_charge := [] },
             average_final_surplus := 0 } :=
  run_simulation_zero_days cfgZeroDays (fun _ _ => 0) rfl (by norm_num [cfgZeroDays])

/-- The deduplication loop returns a sublist of its input. -/
theorem dedupByKey_sublist :
    ∀ (l : List OptimizationResult) (seen : List (ℕ × ℕ × ℕ × ℕ × ℕ × ℚ)),
      (dedupByKey l seen).Sublist l := by
  intro l
  induction l with
  | nil => intro seen; exact List.Sublist.refl []
  | cons r rest ih =>
      intro seen
      simp only [dedupByKey]
      split
      · exact (ih seen).cons r
      · exact (ih _).cons₂ r

/-- The deduplication loop emits no key from the seen set and no key twice. -/
theorem dedupByKey_keys :
    ∀ (l : List OptimizationResult) (seen : List (ℕ × ℕ × ℕ × ℕ × ℕ × ℚ)),
      (∀ r ∈ dedupByKey l seen, paramsKey r.params ∉ seen) ∧
      List.Pairwise (fun x y => paramsKey x.params ≠ paramsKey y.params)
        (dedupByKey l seen) := by
  intro l
  induction l with
  | nil =>
      intro seen
      exact ⟨fun r hr => absurd hr (List.not_mem_nil r), List.Pairwise.nil⟩
  | cons r rest ih =>
      intro seen
      simp only [dedupByKey]
      split
      · exact ih seen
      · rename_i hin
        obtain ⟨ihmem, ihpw⟩ := ih (paramsKey r.params :: seen)
        constructor
        · intro q hq
          rcases List.mem_cons.mp hq with rfl | hq2
          · exact hin
          · exact fun hmem => (ihmem q hq2) (List.mem_cons_of_mem _ hmem)
        · refine List.Pairwise.cons ?_ ihpw
          intro q hq heq
          exact (ihmem q hq) (by rw [← heq]; exact List.mem_cons_self _ _)

/-- On a cost-sorted input, every unseen element has a representative with
the same key and no larger cost in the deduplicated output. -/
theorem dedupByKey_covers :
    ∀ (l : List OptimizationResult) (seen : List (ℕ × ℕ × ℕ × ℕ × ℕ × ℚ)),
      List.Pairwise (fun x y => x.cost ≤ y.cost) l →
      ∀ r ∈ l, paramsKey r.params ∉ seen →
        ∃ q ∈ dedupByKey l seen,
          paramsKey q.params = paramsKey r.params ∧ q.cost ≤ r.cost := by
  intro l
  induction l with
  | nil => intro seen _ r hr; exact absurd hr (List.not_mem_nil r)
  | cons x rest ih =>
      intro seen hpw r hr hrseen
      simp only [dedupByKey]
      split
      · rename_i hin
        have hrx : r ≠ x := fun h => hrseen (by rw [h]; exact hin)
        have hr2 : r ∈ rest := by
          rcases List.mem_cons.mp hr with h | h
          · exact absurd h hrx
          · exact h
        exact ih seen hpw.of_cons r hr2 hrseen
      · by_cases hkey : paramsKey r.params = paramsKey x.params
        · refine ⟨x, List.mem_cons_self _ _, hkey.symm, ?_⟩
          rcases List.mem_cons.mp hr with rfl | hr2
          · exact le_rfl
          · exact (List.pairwise_cons.mp hpw).1 r hr2
        · have hr2 : r ∈ rest := by
            rcases List.mem_cons.mp hr with rfl | h
            · exact absurd rfl hkey
            · exact h
          have hnotin : paramsKey r.params ∉ (paramsKey x.params :: seen) := by
            intro h
            rcases List.mem_cons.mp h with h1 | h1
            · exact hkey h1
            · exact hrseen h1
          obtain ⟨q, hq, hqk, hqc⟩ := ih _ hpw.of_cons r hr2 hnotin
          exact ⟨q, List.mem_cons_of_mem _ hq, hqk, hqc⟩

/-- C6 counterexample: find_optimal_solutions ignores its max_empty_percent
argument; a candidate at 7 percent, feasible for the supplied target 10, is
dropped and the result is empty. -/
theorem find_optimal_solutions_target_counterexample :
    p95_empty_percent candSeven ≤ 10 ∧ 0 ≤ candSeven.energy_surplus ∧
    candSeven ∈ [candSeven] ∧
    find_optimal_solutions [candSeven] 10 = [] := by
  have hval : is_validB candSeven = false := by
    have h7 : p95_empty_percent candSeven = 7 := by
      norm_num [p95_empty_percent, candSeven]
    simp only [is_validB, h7]
    decide
  refine ⟨by norm_num [p95_empty_percent, candSeven],
    by norm_num [candSeven], List.mem_cons_self _ _, ?_⟩
  show dedupByKey (([candSeven].filter is_validB).mergeSort costLe) [] = []
  rw [show [candSeven].filter is_validB = [] from by simp [List.filter, hval],
    List.mergeSort_nil]
  rfl

/-- C6 (amended): find_optimal_solutions returns candidates of the history
that satisfy is_valid (p95_empty_percent at most the hardcoded 5 and no
deficit) — the max_empty_percent argument is ignored — sorted ascending by
cost, at most one entry per distinct configuration, keeping for every valid
history entry a representative of its configuration that costs no more; on a
history with no is_valid entry the result is empty. -/
theorem find_optimal_solutions_spec (history : List OptimizationResult) (t : ℚ) :
    (∀ r ∈ find_optimal_solutions history t,
        r ∈ history ∧ p95_empty_percent r ≤ 5 ∧ 0 ≤ r.energy_surplus) ∧
    List.Pairwise (fun x y => x.cost ≤ y.cost) (find_optimal_solutions history t) ∧
    List.Pairwise (fun x y => paramsKey x.params ≠ paramsKey y.params)
      (find_optimal_solutions history t) ∧
    (∀ r ∈ history, p95_empty_percent r ≤ 5 → 0 ≤ r.energy_surplus →
      ∃ q ∈ find_optimal_solutions history t,
        paramsKey q.params = paramsKey r.params ∧ q.cost ≤ r.cost) ∧
    ((∀ r ∈ history, ¬ (p95_empty_percent r ≤ 5 ∧ 0 ≤ r.energy_surplus)) →
      find_optimal_solutions history t = []) := by
  have htrans : ∀ a b c : OptimizationResult,
      costLe a b = true → costLe b c = true → costLe a c = true := by
    intro a b c hab hbc
    exact decide_eq_true (le_trans (of_decide_eq_true hab) (of_decide_eq_true hbc))
  have htotal : ∀ a b : OptimizationResult, (costLe a b || costLe b a) = true := by
    intro a b
    simp only [costLe, Bool.or_eq_true, decide_eq_true_eq]
    exact le_total _ _
  have hsorted : List.Pairwise (fun x y => x.cost ≤ y.cost)
      ((history.filter is_validB).mergeSort costLe) :=
    (List.sorted_mergeSort htrans htotal (history.filter is_validB)).imp
      (fun h => of_decide_eq_true h)
  have hperm := List.mergeSort_perm (history.filter is_validB) costLe
  have hsub := dedupByKey_sublist ((history.filter is_validB).mergeSort costLe) []
  have hout : find_optimal_solutions history t =
      dedupByKey ((history.filter is_validB).mergeSort costLe) [] := rfl
  refine ⟨?_, ?_, ?_, ?_, ?_⟩
  · intro r hr
    rw [hout] at hr
    have hr3 : r ∈ history.filter is_validB := hperm.subset (hsub.subset hr)
    have hr4 := List.mem_filter.mp hr3
    have hr5 := hr4.2
    simp only [is_validB, Bool.and_eq_true, decide_eq_true_eq] at hr5
    exact ⟨hr4.1, hr5.1, hr5.2⟩
  · rw [hout]
    exact hsorted.sublist hsub
  · rw [hout]
    exact (dedupByKey_keys _ []).2
  · intro r hr hp hs
    have hrv : r ∈ history.filter is_validB := List.mem_filter.mpr
      ⟨hr, by simp only [is_validB, Bool.and_eq_true, decide_eq_true_eq]; exact ⟨hp, hs⟩⟩
    have hrs : r ∈ (history.filter is_validB).mergeSort costLe := hperm.mem_iff.mpr hrv
    rw [hout]
    exact dedupByKey_covers _ [] hsorted r hrs (List.not_mem_nil _)
  · intro hall
    have hf : history.filter is_validB = [] := by
      rw [List.filter_eq_nil_iff]
      intro a ha
      have hna := hall a ha
      simp only [is_validB, Bool.and_eq_true, decide_eq_true_eq]
      exact fun hc => hna ⟨hc.1, hc.2⟩
    rw [hout, hf, List.mergeSort_nil]
    rfl

/-- C6 witness: the empty result on an all-infeasible history and the
cheapest-per-configuration representative on a history with a duplicate
configuration. -/
theorem find_optimal_solutions_spec_witness :
    find_optimal_solutions [candInfeasible] 5 = [] ∧
    (∃ q ∈ find_optimal_solutions [candFeasibleDup, candFeasible] 5,
      paramsKey q.params = paramsKey candFeasibleDup.params ∧
        q.cost ≤ candFeasibleDup.cost) := by
  constructor
  · refine (find_optimal_solutions_spec [candInfeasible] 5).2.2.2.2 ?_
    intro r hr
    rcases List.mem_cons.mp hr with rfl | h
    · intro hc
      have h50 : p95_empty_percent candInfeasible = 50 := by
        norm_num [p95_empty_percent, candInfeasible]
      rw [h50] at hc
      exact absurd hc.1 (by norm_num)
    · exact absurd h (List.not_mem_nil r)
  · exact (find_optimal_solutions_spec [candFeasibleDup, candFeasible] 5).2.2.2.1
      candFeasibleDup (List.mem_cons_self _ _)
      (by norm_num [p95_empty_percent, candFeasibleDup])
      (by norm_num [candFeasibleDup])

end TimberbornPowerMix
